import Mathlib

/-!
Shallow embedding of the notification-service delivery pipeline
(src/app/utils/retry_handler.py, src/app/utils/rate_limiter.py,
src/app/services/queue_service.py, src/app/services/scheduler_service.py,
src/app/channels/webhook_channel.py) together with theorems settling the
frozen claims about it.

Modelling conventions:
- Python floats (times, delays, token counts) are rationals.
- `time.time()` / `datetime.utcnow()` are passed explicitly as a `now` argument.
- `random.uniform(-jitter, jitter)` is an explicit argument `u`; theorems carry
  the hypothesis `|u| ≤ jitter`.
- Mutation is explicit state passing: a Python method that mutates `self` and
  returns `r` becomes a Lean function returning `State × r`.
-/

namespace NotificationService

/-! ## Retry planner — src/app/utils/retry_handler.py -/

/-- `backoff_with_jitter(base_delay, attempt, jitter_ratio=0.2)`:
`delay = base_delay * 2 ** (attempt - 1)`; `jitter = delay * 0.2`;
returns `max(0.0, delay + random.uniform(-jitter, jitter))`.  The random draw
is the explicit argument `u`. -/
def backoff_with_jitter (base_delay : ℚ) (attempt : ℕ) (u : ℚ) : ℚ :=
  let delay := base_delay * 2 ^ (attempt - 1)
  max 0 (delay + u)

/-- `RetryPlan` dataclass: `max_attempts`, `delays` (seconds). -/
structure RetryPlan where
  max_attempts : ℕ
  delays : List ℚ
deriving DecidableEq, Repr

/-- `RetryPlan.next_delay(attempt_number)`: 0 for `attempt_number <= 1`;
`delays[attempt_number - 2]` when in range; otherwise
`backoff_with_jitter(base, attempt_number - len(delays))` with
`base = delays[-1] if delays else 1.0`. -/
def RetryPlan.next_delay (p : RetryPlan) (attempt_number : ℕ) (u : ℚ) : ℚ :=
  if attempt_number ≤ 1 then 0
  else if h : attempt_number - 2 < p.delays.length then
    p.delays.get ⟨attempt_number - 2, h⟩
  else
    let base := p.delays.getLastD 1
    backoff_with_jitter base (attempt_number - p.delays.length) u

/-- `get_retry_plan(priority)` with the fixed `RETRY_CONFIGS` table; unknown
priorities fall back to the `"normal"` entry (`dict.get` default). -/
def get_retry_plan (priority : String) : RetryPlan :=
  if priority = "critical" then ⟨5, [1, 5, 15, 60, 300]⟩
  else if priority = "high" then ⟨3, [5, 30, 120]⟩
  else if priority = "normal" then ⟨2, [10, 60]⟩
  else if priority = "low" then ⟨1, []⟩
  else ⟨2, [10, 60]⟩

/-! ## Circuit breaker — src/app/utils/retry_handler.py -/

/-- The three breaker states (`"closed" | "open" | "half_open"`); `open` is a
Lean keyword, so the middle state is named `opened`. -/
inductive CBState where
  | closed
  | opened
  | half_open
deriving DecidableEq, Repr

/-- `CircuitBreaker` dataclass fields. -/
structure CircuitBreaker where
  failure_threshold : ℕ
  cooldown_seconds : ℚ
  state : CBState
  failure_count : ℕ
  opened_at : Option ℚ
  half_open_probe_in_flight : Bool
deriving DecidableEq, Repr

/-- A fresh breaker: dataclass defaults `state="closed"`, `failure_count=0`,
`opened_at=None`, `half_open_probe_in_flight=False`. -/
def newCircuitBreaker (failure_threshold : ℕ) (cooldown_seconds : ℚ) : CircuitBreaker :=
  ⟨failure_threshold, cooldown_seconds, .closed, 0, none, false⟩

/-- `CircuitBreaker.on_success`. -/
def CircuitBreaker.on_success (cb : CircuitBreaker) : CircuitBreaker :=
  { cb with state := .closed, failure_count := 0, opened_at := none,
            half_open_probe_in_flight := false }

/-- `CircuitBreaker.on_failure`; `time.time()` is the argument `now`. -/
def CircuitBreaker.on_failure (cb : CircuitBreaker) (now : ℚ) : CircuitBreaker :=
  if cb.state = .half_open then
    { cb with state := .opened, opened_at := some now,
              half_open_probe_in_flight := false,
              failure_count := max cb.failure_count cb.failure_threshold }
  else
    let fc := cb.failure_count + 1
    if cb.failure_threshold ≤ fc then
      { cb with failure_count := fc, state := .opened, opened_at := some now }
    else
      { cb with failure_count := fc }

/-- `CircuitBreaker.allow_request`; returns the updated breaker plus the
boolean result.  The source's open-state cooldown branch sets
`state = "half_open"`, clears the probe flag and recursively calls
`allow_request`; that recursive call immediately claims the probe and returns
`True`, which is inlined here. -/
def CircuitBreaker.allow_request (cb : CircuitBreaker) (now : ℚ) : CircuitBreaker × Bool :=
  match cb.state with
  | .closed => (cb, true)
  | .opened =>
    match cb.opened_at with
    | none => ({ cb with opened_at := some now }, false)
    | some t =>
      if cb.cooldown_seconds ≤ now - t then
        ({ cb with state := .half_open, half_open_probe_in_flight := true }, true)
      else
        (cb, false)
  | .half_open =>
    if cb.half_open_probe_in_flight = false then
      ({ cb with half_open_probe_in_flight := true }, true)
    else
      (cb, false)

/-! ## Rate limiter — src/app/utils/rate_limiter.py -/

/-- `TokenBucket` dataclass. -/
structure TokenBucket where
  capacity : ℚ
  refill_rate : ℚ
  tokens : ℚ
  last_refill : ℚ
deriving DecidableEq, Repr

/-- The refill step of `TokenBucket.try_consume`: when `elapsed > 0`, set
`tokens = min(capacity, tokens + elapsed * refill_rate)` and
`last_refill = now`. -/
def TokenBucket.refilled (b : TokenBucket) (now : ℚ) : TokenBucket :=
  if 0 < now - b.last_refill then
    { b with tokens := min b.capacity (b.tokens + (now - b.last_refill) * b.refill_rate),
             last_refill := now }
  else b

/-- `TokenBucket.try_consume(amount)`: refill, then consume `amount` and
return true if `tokens >= amount`, else leave the tokens and return false. -/
def TokenBucket.try_consume (b : TokenBucket) (now : ℚ) (amount : ℚ) :
    TokenBucket × Bool :=
  if amount ≤ (b.refilled now).tokens then
    ({ b.refilled now with tokens := (b.refilled now).tokens - amount }, true)
  else
    (b.refilled now, false)

/-- The `_buckets` dict is modelled as an association list with at most one
entry per key; `dict.get`. -/
def lookupBucket (key : String) : List (String × TokenBucket) → Option TokenBucket
  | [] => none
  | (k, b) :: rest => if k = key then some b else lookupBucket key rest

/-- Removal of a key from the bucket map (used to express the dict update
`self._buckets[key] = bucket`). -/
def removeBucket (key : String) : List (String × TokenBucket) → List (String × TokenBucket)
  | [] => []
  | (k, b) :: rest => if k = key then rest else (k, b) :: removeBucket key rest

/-- `RateLimiter.__init__` state: `capacity`, `refill_rate`, `_buckets`. -/
structure RateLimiter where
  capacity : ℚ
  refill_rate : ℚ
  buckets : List (String × TokenBucket)
deriving DecidableEq, Repr

/-- `RateLimiter.allow(key, amount)`: fetch the key's bucket, creating a full
one (`tokens = capacity`, `last_refill = now`) for an unseen key, then
`try_consume(amount)` and store the updated bucket back under the key. -/
def RateLimiter.allow (rl : RateLimiter) (key : String) (now : ℚ) (amount : ℚ) :
    RateLimiter × Bool :=
  let bucket :=
    match lookupBucket key rl.buckets with
    | some b => b
    | none => ⟨rl.capacity, rl.refill_rate, rl.capacity, now⟩
  let r := bucket.try_consume now amount
  ({ rl with buckets := (key, r.1) :: removeBucket key rl.buckets }, r.2)

/-- Driver for the burst scenario of the spec: `n` successive
`allow(key, 1)` calls issued at the single instant `now`; returns the final
limiter state and the number of calls that returned true. -/
def RateLimiter.allowBurst (rl : RateLimiter) (key : String) (now : ℚ) :
    ℕ → RateLimiter × ℕ
  | 0 => (rl, 0)
  | n + 1 =>
    let r := rl.allow key now 1
    let rest := r.1.allowBurst key now n
    (rest.1, (if r.2 then 1 else 0) + rest.2)

/-! ## Priority queue — src/app/services/queue_service.py -/

/-- `_priority_value(priority)`: `{"critical": 0, "high": 1, "normal": 2,
"low": 3}.get(priority, 2)`. -/
def _priority_value (priority : String) : ℕ :=
  if priority = "critical" then 0
  else if priority = "high" then 1
  else if priority = "normal" then 2
  else if priority = "low" then 3
  else 2

/-- Ready-queue entries `(priority_value, seq, tracking_id)`; tracking ids are
numbered so that the Python tuple order (which would compare the id strings on
a full tie) stays a total order. -/
structure QueueEntry where
  priority_rank : ℕ
  sequence : ℕ
  tracking_id : ℕ
deriving DecidableEq, Repr

/-- Python's lexicographic tuple comparison on
`(priority_value, seq, tracking_id)`, as used by `asyncio.PriorityQueue`. -/
def entryLe (a b : QueueEntry) : Prop :=
  a.priority_rank < b.priority_rank ∨
    (a.priority_rank = b.priority_rank ∧
      (a.sequence < b.sequence ∨
        (a.sequence = b.sequence ∧ a.tracking_id ≤ b.tracking_id)))

instance (a b : QueueEntry) : Decidable (entryLe a b) := by
  unfold entryLe
  exact inferInstance

/-- Selection of a least entry (under the tuple order) from the nonempty
queue `x :: xs`, returning it together with the remaining entries. -/
def popMin1 : QueueEntry → List QueueEntry → QueueEntry × List QueueEntry
  | x, [] => (x, [])
  | x, y :: ys =>
    if entryLe x (popMin1 y ys).1 then (x, y :: ys)
    else ((popMin1 y ys).1, x :: (popMin1 y ys).2)

/-- `asyncio.PriorityQueue.get`: remove and return a least entry under the
tuple order (`none` on an empty queue). -/
def popMin : List QueueEntry → Option (QueueEntry × List QueueEntry)
  | [] => none
  | x :: xs => some (popMin1 x xs)

/-- Repeatedly pop the least entry, with explicit fuel (the queue length
strictly decreases with each pop, so `fuel = q.length` drains completely). -/
def drainAux : ℕ → List QueueEntry → List QueueEntry
  | 0, _ => []
  | _ + 1, [] => []
  | fuel + 1, x :: xs => (popMin1 x xs).1 :: drainAux fuel (popMin1 x xs).2

/-- The dequeue order of a queue: the sequence of entries returned by
repeatedly popping until empty. -/
def drain (q : List QueueEntry) : List QueueEntry :=
  drainAux q.length q

/-! ## Worker processing — src/app/services/queue_service.py -/

/-- The fields of `NotificationORM` that the worker reads and writes.
`content`, `channel` and `recipient` only flow through to the adapter and the
breaker key, so the dispatch outcome stands in for them below. -/
structure Notif where
  tracking_id : String
  priority : String
  status : String
  attempts : ℕ
  delivered_at : Option ℚ
  last_attempt_at : Option ℚ
  failure_reason : Option String
deriving DecidableEq, Repr

/-- A freshly enqueued notification (`enqueue_notification`): status
`"queued"`, `attempts = 0`, all outcome fields unset. -/
def freshNotif (tracking_id priority : String) : Notif :=
  ⟨tracking_id, priority, "queued", 0, none, none, none⟩

/-- `DeliveryAttemptORM` fields written by `record_delivery_attempt`. -/
structure DeliveryAttempt where
  tracking_id : String
  attempt_number : ℕ
  status : String
  error_message : Option String
  response_code : Option ℕ
  attempted_at : ℚ
  latency_ms : ℚ
deriving DecidableEq, Repr

/-- `record_delivery_attempt(db, tracking_id, attempt_number, status,
latency_ms, error_message, response_code)`: build the attempt row
(`attempted_at = datetime.utcnow()`, passed as `now`), then update the parent
notification.  Returns the updated notification and the appended attempt. -/
def record_delivery_attempt (n : Notif) (attempt_number : ℕ) (status : String)
    (latency_ms : ℚ) (error_message : Option String) (response_code : Option ℕ)
    (now : ℚ) : Notif × DeliveryAttempt :=
  let attempt : DeliveryAttempt :=
    { tracking_id := n.tracking_id, attempt_number := attempt_number,
      status := status, error_message := error_message,
      response_code := response_code, attempted_at := now,
      latency_ms := latency_ms }
  let n1 := { n with attempts := max n.attempts attempt_number,
                     last_attempt_at := some attempt.attempted_at }
  let n2 :=
    if status = "delivered" then
      { n1 with status := "delivered", delivered_at := some attempt.attempted_at,
                failure_reason := none }
    else if status = "failed" ∨ status = "bounced" then
      { n1 with status := status, failure_reason := error_message }
    else n1
  (n2, attempt)

/-- Outcome of the `channel.send` dispatch inside `_process_tracking_id`:
success, `PermanentChannelError`, `TransientChannelError`, or any other
exception. -/
inductive SendOutcome where
  | success
  | permanentError (msg : String)
  | transientError (msg : String)
  | unknownError (msg : String)
deriving DecidableEq, Repr

/-- What one `_process_tracking_id` call did: final notification and breaker,
the attempt rows recorded, the scheduled re-enqueue delay
(`_delayed_requeue`) if any, and whether the channel adapter was invoked. -/
structure StepResult where
  notif : Notif
  cb : CircuitBreaker
  recorded : List DeliveryAttempt
  requeue : Option ℚ
  dispatched : Bool
deriving DecidableEq, Repr

/-- `_process_tracking_id(tracking_id)` for a found notification, with the
rate limiter not configured (`_rate_limiter is None`, the default).  The
dispatch outcome (success or raised error class) is the argument `outcome`;
`latency` is the measured perf-counter latency, `u` the jitter draw for the
retry delay. -/
def _process_tracking_id (notif : Notif) (cb : CircuitBreaker)
    (outcome : SendOutcome) (now latency u : ℚ) : StepResult :=
  let plan := get_retry_plan notif.priority
  let ar := cb.allow_request now
  if ar.2 = false then
    let ra := record_delivery_attempt notif (notif.attempts + 1) "failed" 0
      (some "circuit_open") none now
    ⟨ra.1, ar.1, [ra.2], none, false⟩
  else
    let attempt_number := notif.attempts + 1
    let sending := { notif with status := "sending" }
    match outcome with
    | .success =>
      let cb2 := ar.1.on_success
      let ra := record_delivery_attempt sending attempt_number "delivered"
        latency none none now
      ⟨ra.1, cb2, [ra.2], none, true⟩
    | .permanentError msg =>
      let cb2 := ar.1.on_failure now
      let ra := record_delivery_attempt sending attempt_number "failed"
        latency (some msg) none now
      ⟨ra.1, cb2, [ra.2], none, true⟩
    | .transientError msg =>
      let cb2 := ar.1.on_failure now
      let ra := record_delivery_attempt sending attempt_number "failed"
        latency (some msg) none now
      let requeue :=
        if attempt_number < plan.max_attempts then
          some (plan.next_delay (attempt_number + 1) u)
        else none
      ⟨ra.1, cb2, [ra.2], requeue, true⟩
    | .unknownError msg =>
      let cb2 := ar.1.on_failure now
      let ra := record_delivery_attempt sending attempt_number "failed"
        latency (some ("unexpected: " ++ msg)) none now
      let requeue :=
        if attempt_number < plan.max_attempts then
          some (plan.next_delay (attempt_number + 1) u)
        else none
      ⟨ra.1, cb2, [ra.2], requeue, true⟩

/-- Accumulated result of a worker run. -/
structure RunResult where
  notif : Notif
  cb : CircuitBreaker
  recorded : List DeliveryAttempt
deriving DecidableEq, Repr

/-- Driver for end-to-end scenarios: process the notification, and whenever a
delayed re-enqueue is scheduled, pop it again exactly when the timer elapses
(prompt processing: dispatch latency 0, jitter draw 0).  `outcomes` gives the
adapter outcome of each dispatch, indexed by attempt number. -/
def run_loop : ℕ → Notif → CircuitBreaker → (ℕ → SendOutcome) → ℚ → RunResult
  | 0, notif, cb, _, _ => ⟨notif, cb, []⟩
  | fuel + 1, notif, cb, outcomes, now =>
    let r := _process_tracking_id notif cb (outcomes (notif.attempts + 1)) now 0 0
    match r.requeue with
    | none => ⟨r.notif, r.cb, r.recorded⟩
    | some d =>
      let rest := run_loop fuel r.notif r.cb outcomes (now + d)
      ⟨rest.notif, rest.cb, r.recorded ++ rest.recorded⟩

/-! ## Scheduler — src/app/services/scheduler_service.py

Datetimes are minutes-count integers; an IANA timezone is modelled as a fixed
offset `tz_offset` in minutes east of UTC (`local wall-clock = UTC wall-clock
+ tz_offset`).  A naive datetime is a bare wall-clock number; an aware UTC
datetime is identified with its UTC wall-clock number. -/

/-- `_to_utc(dt, tz_name)` for a naive `dt`: interpret the wall-clock reading
in the timezone and convert to UTC. -/
def _to_utc (dt : ℤ) (tz_offset : ℤ) : ℤ :=
  dt - tz_offset

/-- `_next_cron_time(current_local, cron_expr, tz_name)` for an aware UTC
input: convert to the local timezone, take croniter's next occurrence (the
abstract `cronNext` on local wall-clock readings), convert back to UTC. -/
def _next_cron_time (current_utc : ℤ) (cronNext : ℤ → ℤ) (tz_offset : ℤ) : ℤ :=
  let base_local := current_utc + tz_offset
  let next_local := cronNext base_local
  next_local - tz_offset

/-- `ScheduledNotificationORM` fields used by `_process_due_schedules`; the
cron `recurrence` string is modelled by its croniter next-occurrence function
on local wall-clock readings. -/
structure Schedule where
  send_at : ℤ
  tz_offset : ℤ
  recurrence : Option (ℤ → ℤ)
  last_run : Option ℤ
  active : Bool

/-- Due check of `_process_due_schedules`:
`send_at_utc <= now_utc and (last_run is None or last_run < send_at_utc)`. -/
def schedule_due (now_utc : ℤ) (s : Schedule) : Bool :=
  decide (_to_utc s.send_at s.tz_offset ≤ now_utc) &&
    (match s.last_run with
     | none => true
     | some lr => decide (lr < _to_utc s.send_at s.tz_offset))

/-- Result of processing one schedule: updated row and whether a notification
was enqueued. -/
structure SchedStep where
  sched : Schedule
  enqueued : Bool

/-- One iteration of the loop body of `_process_due_schedules` for a single
schedule (the SQL query filters on `active == True`).  A due schedule is
enqueued and gets `last_run := now_utc`; a recurring one stores
`_next_cron_time(send_at_utc, recurrence, tz).replace(tzinfo=None)` — the
naive UTC wall-clock of the next occurrence — as the new `send_at` (the
`timezone` column is not written); a one-off is deactivated. -/
def _process_due_schedule (now_utc : ℤ) (s : Schedule) : SchedStep :=
  if s.active && schedule_due now_utc s then
    let send_at_utc := _to_utc s.send_at s.tz_offset
    match s.recurrence with
    | some cronNext =>
      ⟨{ s with last_run := some now_utc,
                send_at := _next_cron_time send_at_utc cronNext s.tz_offset },
        true⟩
    | none =>
      ⟨{ s with last_run := some now_utc, active := false }, true⟩
  else
    ⟨s, false⟩

/-! ## Webhook response classification — src/app/channels/webhook_channel.py -/

/-- Possible results of `WebhookChannel.send` once an HTTP response was
received: a metadata dict with the status code, or one of the two channel
error classes. -/
inductive WebhookResult where
  | ok (status_code : ℕ)
  | permanentError (msg : String)
  | transientError (msg : String)
deriving DecidableEq, Repr

/-- Response classification in `WebhookChannel.send`: 2xx success, 4xx
`PermanentChannelError`, everything else `TransientChannelError`; `text` is
`resp.text`, truncated to 200 characters in the messages. -/
def webhook_classify_response (status_code : ℕ) (text : String) : WebhookResult :=
  if 200 ≤ status_code ∧ status_code < 300 then
    .ok status_code
  else if 400 ≤ status_code ∧ status_code < 500 then
    .permanentError ("Webhook responded with " ++ toString status_code ++ ": "
      ++ (text.take 200))
  else
    .transientError ("Webhook server error " ++ toString status_code ++ ": "
      ++ (text.take 200))

/-! ## Driver for C3: a sequence of recorded failures -/

/-- Apply `on_failure` `n` times, the `i`-th call at time `times i`. -/
def iterFail (times : ℕ → ℚ) : ℕ → CircuitBreaker → CircuitBreaker
  | 0, cb => cb
  | n + 1, cb => (iterFail times n cb).on_failure (times n)

/-! # Theorems -/

/-! ## C1 — RetryPlan.next_delay -/

theorem next_delay_first (p : RetryPlan) (u : ℚ) : p.next_delay 1 u = 0 := by
  simp [RetryPlan.next_delay]

theorem next_delay_in_range (p : RetryPlan) (k : ℕ) (u : ℚ) (h2 : 2 ≤ k)
    (h : k - 2 < p.delays.length) :
    p.next_delay k u = p.delays.get ⟨k - 2, h⟩ := by
  unfold RetryPlan.next_delay
  rw [if_neg (by omega), dif_pos h]

theorem next_delay_fallback (p : RetryPlan) (k : ℕ) (u : ℚ) (h2 : 2 ≤ k)
    (h : p.delays.length ≤ k - 2) (hbase : 0 < p.delays.getLastD 1)
    (hu : |u| ≤ p.delays.getLastD 1 * 2 ^ (k - p.delays.length - 1) / 5) :
    max 0 (4 / 5 * (p.delays.getLastD 1 * 2 ^ (k - p.delays.length - 1)))
        ≤ p.next_delay k u ∧
      p.next_delay k u
        ≤ 6 / 5 * (p.delays.getLastD 1 * 2 ^ (k - p.delays.length - 1)) := by
  unfold RetryPlan.next_delay backoff_with_jitter
  rw [if_neg (by omega), dif_neg (by omega)]
  set d : ℚ := p.delays.getLastD 1 * 2 ^ (k - p.delays.length - 1) with hd
  have hdpos : 0 < d := by
    exact mul_pos hbase (pow_pos (by norm_num) _)
  obtain ⟨hul, hur⟩ := abs_le.mp hu
  have hmax : max 0 (d + u) = d + u := by
    apply max_eq_right
    linarith
  have hmax0 : max 0 (4 / 5 * d) = 4 / 5 * d := by
    apply max_eq_right
    linarith
  rw [hmax, hmax0]
  constructor <;> linarith

theorem get_retry_plan_base_pos (p : String) :
    0 < (get_retry_plan p).delays.getLastD 1 := by
  unfold get_retry_plan
  split_ifs <;> exact of_decide_eq_true (by with_unfolding_all rfl)

/-- C1 (counterexample): the claim puts the fallback backoff for the normal
plan at attempt `k = 4` in the jitter interval around
`base * 2 ^ n = 60 * 2 ^ 2 = 240`, i.e. `[192, 288]`; but the code computes
`base * 2 ^ (n - 1) = 120`, so even the zero-jitter draw (a legal draw, since
`|0| ≤ 0.2 * 120`) lands outside the claimed interval. -/
theorem retry_backoff_interval_counterexample :
    (get_retry_plan "normal").delays.getLastD 1 = 60 ∧
    4 - (get_retry_plan "normal").delays.length = 2 ∧
    |(0 : ℚ)| ≤ (get_retry_plan "normal").delays.getLastD 1
      * 2 ^ (4 - (get_retry_plan "normal").delays.length - 1) / 5 ∧
    (get_retry_plan "normal").next_delay 4 0 = 120 ∧
    ¬ max 0 (4 / 5 * ((60 : ℚ) * 2 ^ 2)) ≤ (get_retry_plan "normal").next_delay 4 0 :=
  of_decide_eq_true (by with_unfolding_all rfl)

/-- C1 (amended): for every plan from the fixed table, `next_delay 1 = 0`;
for `k ≥ 2` with `k - 2` in range it is `delays[k-2]`; past the configured
delays it lies in the symmetric 20% jitter interval around
`base * 2 ^ (n - 1)` (not `base * 2 ^ n`), clamped at 0, where
`base = delays[-1]` (or 1) and `n = k - len(delays)`. -/
theorem retry_next_delay_spec (p : String) (k : ℕ) (u : ℚ) :
    (get_retry_plan p).next_delay 1 u = 0 ∧
    (∀ (h : k - 2 < (get_retry_plan p).delays.length), 2 ≤ k →
      (get_retry_plan p).next_delay k u = (get_retry_plan p).delays.get ⟨k - 2, h⟩) ∧
    (2 ≤ k → (get_retry_plan p).delays.length ≤ k - 2 →
      |u| ≤ (get_retry_plan p).delays.getLastD 1
        * 2 ^ (k - (get_retry_plan p).delays.length - 1) / 5 →
      max 0 (4 / 5 * ((get_retry_plan p).delays.getLastD 1
          * 2 ^ (k - (get_retry_plan p).delays.length - 1)))
        ≤ (get_retry_plan p).next_delay k u ∧
      (get_retry_plan p).next_delay k u
        ≤ 6 / 5 * ((get_retry_plan p).delays.getLastD 1
          * 2 ^ (k - (get_retry_plan p).delays.length - 1))) := by
  refine ⟨next_delay_first _ u, ?_, ?_⟩
  · intro h h2
    exact next_delay_in_range _ k u h2 h
  · intro h2 h hu
    exact next_delay_fallback _ k u h2 h (get_retry_plan_base_pos p) hu

/-- Witness for `retry_next_delay_spec`: the critical plan at attempt 3
(in-range delay 5) and the low plan at attempt 3 (fallback,
`base = 1`, `n = 3`, interval `[3.2, 4.8]` around `1 * 2 ^ 2 = 4`). -/
theorem retry_next_delay_spec_witness :
    (get_retry_plan "critical").next_delay 1 0 = 0 ∧
    (3 - 2 < (get_retry_plan "critical").delays.length ∧
      (get_retry_plan "critical").next_delay 3 0 = 5) ∧
    ((get_retry_plan "low").delays.length ≤ 3 - 2 ∧
      max 0 (4 / 5 * ((get_retry_plan "low").delays.getLastD 1
          * 2 ^ (3 - (get_retry_plan "low").delays.length - 1)))
        ≤ (get_retry_plan "low").next_delay 3 0 ∧
      (get_retry_plan "low").next_delay 3 0
        ≤ 6 / 5 * ((get_retry_plan "low").delays.getLastD 1
          * 2 ^ (3 - (get_retry_plan "low").delays.length - 1))) := by
  have hlen : 3 - 2 < (get_retry_plan "critical").delays.length :=
    of_decide_eq_true (by with_unfolding_all rfl)
  have h1 := (retry_next_delay_spec "critical" 3 0).1
  have h2 := (retry_next_delay_spec "critical" 3 0).2.1 hlen (by omega)
  have h3 := (retry_next_delay_spec "low" 3 0).2.2 (by omega)
    (of_decide_eq_true (by with_unfolding_all rfl))
    (of_decide_eq_true (by with_unfolding_all rfl))
  refine ⟨h1, ⟨hlen, ?_⟩, ⟨of_decide_eq_true (by with_unfolding_all rfl), h3⟩⟩
  rw [h2]
  exact of_decide_eq_true (by with_unfolding_all rfl)

/-! ## C3 — circuit breaker lifecycle -/

theorem iterFail_closed (times : ℕ → ℚ) (t : ℕ) (c : ℚ) (k : ℕ) (hk : k < t) :
    iterFail times k (newCircuitBreaker t c) =
      { newCircuitBreaker t c with failure_count := k } := by
  induction k with
  | zero => rfl
  | succ n ih =>
    have hn : n < t := by omega
    rw [iterFail, ih hn]
    unfold CircuitBreaker.on_failure newCircuitBreaker
    rw [if_neg (by simp), if_neg (by simp; omega)]

theorem iterFail_opens (times : ℕ → ℚ) (t : ℕ) (c : ℚ) (ht : 1 ≤ t) :
    iterFail times t (newCircuitBreaker t c) =
      { newCircuitBreaker t c with failure_count := t, state := .opened,
                                   opened_at := some (times (t - 1)) } := by
  obtain ⟨n, rfl⟩ : ∃ n, t = n + 1 := ⟨t - 1, by omega⟩
  rw [iterFail, iterFail_closed times (n + 1) c n (by omega)]
  unfold CircuitBreaker.on_failure newCircuitBreaker
  rw [if_neg (by simp), if_pos (by simp)]
  simp

/-- C3: starting closed, `failure_threshold` consecutive `on_failure` calls
(at arbitrary times) open the breaker and stamp `opened_at` with the last
failure time; while open, `allow_request` refuses and leaves the breaker
unchanged until `cooldown_seconds` have elapsed since `opened_at`; the first
call at or past the cooldown flips to half-open, claims the probe and returns
true; any further `allow_request` in half-open with the probe in flight
refuses and changes nothing; `on_success` resets to closed with
`failure_count = 0` and the probe flag cleared; `on_failure` in half-open
reopens with `opened_at := now`. -/
theorem circuit_breaker_lifecycle :
    (∀ (times : ℕ → ℚ) (t : ℕ) (c : ℚ), 1 ≤ t →
      (iterFail times t (newCircuitBreaker t c)).state = .opened ∧
      (iterFail times t (newCircuitBreaker t c)).opened_at = some (times (t - 1))) ∧
    (∀ (cb : CircuitBreaker) (t0 now : ℚ), cb.state = .opened →
      cb.opened_at = some t0 → now - t0 < cb.cooldown_seconds →
      cb.allow_request now = (cb, false)) ∧
    (∀ (cb : CircuitBreaker) (t0 now : ℚ), cb.state = .opened →
      cb.opened_at = some t0 → cb.cooldown_seconds ≤ now - t0 →
      cb.allow_request now =
        ({ cb with state := .half_open, half_open_probe_in_flight := true }, true)) ∧
    (∀ (cb : CircuitBreaker) (now : ℚ), cb.state = .half_open →
      cb.half_open_probe_in_flight = true → cb.allow_request now = (cb, false)) ∧
    (∀ cb : CircuitBreaker, cb.on_success.state = .closed ∧
      cb.on_success.failure_count = 0 ∧
      cb.on_success.half_open_probe_in_flight = false) ∧
    (∀ (cb : CircuitBreaker) (now : ℚ), cb.state = .half_open →
      (cb.on_failure now).state = .opened ∧ (cb.on_failure now).opened_at = some now) := by
  refine ⟨?_, ?_, ?_, ?_, ?_, ?_⟩
  · intro times t c ht
    rw [iterFail_opens times t c ht]
    exact ⟨rfl, rfl⟩
  · intro cb t0 now hst hoa hcool
    obtain ⟨ft, cs, st, fc, oa, pf⟩ := cb
    simp only at hst hoa hcool
    subst hst hoa
    unfold CircuitBreaker.allow_request
    simp only
    rw [if_neg (by simpa using not_le.mpr hcool)]
  · intro cb t0 now hst hoa hcool
    obtain ⟨ft, cs, st, fc, oa, pf⟩ := cb
    simp only at hst hoa hcool
    subst hst hoa
    unfold CircuitBreaker.allow_request
    simp only
    rw [if_pos (by simpa using hcool)]
  · intro cb now hst hpf
    obtain ⟨ft, cs, st, fc, oa, pf⟩ := cb
    simp only at hst hpf
    subst hst hpf
    unfold CircuitBreaker.allow_request
    simp
  · intro cb
    unfold CircuitBreaker.on_success
    exact ⟨rfl, rfl, rfl⟩
  · intro cb now hst
    unfold CircuitBreaker.on_failure
    rw [if_pos hst]
    exact ⟨rfl, rfl⟩

/-- Witness for `circuit_breaker_lifecycle` at the defaults
`failure_threshold = 3`, `cooldown_seconds = 60`. -/
theorem circuit_breaker_lifecycle_witness :
    ((iterFail (fun n => n) 3 (newCircuitBreaker 3 60)).state = .opened ∧
      (iterFail (fun n => n) 3 (newCircuitBreaker 3 60)).opened_at = some 2) ∧
    (CircuitBreaker.allow_request ⟨3, 60, .opened, 3, some 0, false⟩ 59 =
      (⟨3, 60, .opened, 3, some 0, false⟩, false)) ∧
    (CircuitBreaker.allow_request ⟨3, 60, .opened, 3, some 0, false⟩ 60 =
      (⟨3, 60, .half_open, 3, some 0, true⟩, true)) ∧
    (CircuitBreaker.allow_request ⟨3, 60, .half_open, 3, some 0, true⟩ 61 =
      (⟨3, 60, .half_open, 3, some 0, true⟩, false)) ∧
    ((CircuitBreaker.on_success ⟨3, 60, .half_open, 3, some 0, true⟩).state = .closed ∧
      (CircuitBreaker.on_success ⟨3, 60, .half_open, 3, some 0, true⟩).failure_count = 0 ∧
      (CircuitBreaker.on_success ⟨3, 60, .half_open, 3, some 0, true⟩).half_open_probe_in_flight = false) ∧
    ((CircuitBreaker.on_failure ⟨3, 60, .half_open, 3, some 0, true⟩ 61).state = .opened ∧
      (CircuitBreaker.on_failure ⟨3, 60, .half_open, 3, some 0, true⟩ 61).opened_at = some 61) := by
  obtain ⟨w1, w2, w3, w4, w5, w6⟩ := circuit_breaker_lifecycle
  refine ⟨w1 (fun n => n) 3 60 (by omega), ?_, ?_, ?_, w5 _, w6 _ 61 rfl⟩
  · exact w2 ⟨3, 60, .opened, 3, some 0, false⟩ 0 59 rfl rfl
      (of_decide_eq_true (by with_unfolding_all rfl))
  · exact w3 ⟨3, 60, .opened, 3, some 0, false⟩ 0 60 rfl rfl
      (of_decide_eq_true (by with_unfolding_all rfl))
  · exact w4 ⟨3, 60, .half_open, 3, some 0, true⟩ 61 rfl rfl

/-! ## C7 — circuit-open fast fail -/

/-- C7: when the recipient's breaker refuses the request, the worker records
one failed attempt with `error_message = "circuit_open"` and `latency_ms = 0`,
does not dispatch to the channel adapter, schedules no re-enqueue, and the
notification ends with status `"failed"` and `failure_reason "circuit_open"`. -/
theorem circuit_open_fast_fail (notif : Notif) (cb : CircuitBreaker)
    (outcome : SendOutcome) (now latency u : ℚ)
    (h : (cb.allow_request now).2 = false) :
    (_process_tracking_id notif cb outcome now latency u).recorded =
      [⟨notif.tracking_id, notif.attempts + 1, "failed", some "circuit_open",
        none, now, 0⟩] ∧
    (_process_tracking_id notif cb outcome now latency u).dispatched = false ∧
    (_process_tracking_id notif cb outcome now latency u).requeue = none ∧
    (_process_tracking_id notif cb outcome now latency u).notif.status = "failed" ∧
    (_process_tracking_id notif cb outcome now latency u).notif.failure_reason =
      some "circuit_open" ∧
    (_process_tracking_id notif cb outcome now latency u).cb =
      (cb.allow_request now).1 := by
  unfold _process_tracking_id
  simp [h, record_delivery_attempt]

/-- Witness for `circuit_open_fast_fail`: a breaker opened at time 0 refuses
at time 10 (cooldown 60). -/
theorem circuit_open_fast_fail_witness :
    ((CircuitBreaker.allow_request ⟨3, 60, .opened, 3, some 0, false⟩ 10).2 = false) ∧
    (_process_tracking_id (freshNotif "t1" "normal") ⟨3, 60, .opened, 3, some 0, false⟩
      .success 10 0 0).recorded =
      [⟨"t1", 1, "failed", some "circuit_open", none, 10, 0⟩] ∧
    (_process_tracking_id (freshNotif "t1" "normal") ⟨3, 60, .opened, 3, some 0, false⟩
      .success 10 0 0).dispatched = false ∧
    (_process_tracking_id (freshNotif "t1" "normal") ⟨3, 60, .opened, 3, some 0, false⟩
      .success 10 0 0).requeue = none := by
  have h : (CircuitBreaker.allow_request ⟨3, 60, .opened, 3, some 0, false⟩ 10).2 = false :=
    of_decide_eq_true (by with_unfolding_all rfl)
  obtain ⟨h1, h2, h3, _⟩ := circuit_open_fast_fail (freshNotif "t1" "normal")
    ⟨3, 60, .opened, 3, some 0, false⟩ .success 10 0 0 h
  exact ⟨h, h1, h2, h3⟩

/-! ## C5 — record_delivery_attempt -/

theorem process_preserves_no_delivered (notif : Notif) (cb : CircuitBreaker)
    (outcome : SendOutcome) (now latency u : ℚ) (h : notif.delivered_at = none) :
    (_process_tracking_id notif cb outcome now latency u).notif.delivered_at = none ∨
    ((_process_tracking_id notif cb outcome now latency u).notif.status = "delivered" ∧
      (_process_tracking_id notif cb outcome now latency u).requeue = none) := by
  unfold _process_tracking_id
  cases har : (cb.allow_request now).2 with
  | false => left; simp [har, record_delivery_attempt, h]
  | true =>
    cases outcome with
    | success => right; simp [har, record_delivery_attempt]
    | permanentError msg => left; simp [har, record_delivery_attempt, h]
    | transientError msg => left; simp [har, record_delivery_attempt, h]
    | unknownError msg => left; simp [har, record_delivery_attempt, h]

theorem run_loop_delivered_at (fuel : ℕ) :
    ∀ (notif : Notif) (cb : CircuitBreaker) (outcomes : ℕ → SendOutcome) (now : ℚ),
    notif.delivered_at = none →
    (run_loop fuel notif cb outcomes now).notif.delivered_at ≠ none →
    (run_loop fuel notif cb outcomes now).notif.status = "delivered" := by
  induction fuel with
  | zero =>
    intro notif cb outcomes now h hne
    exact absurd h hne
  | succ n ih =>
    intro notif cb outcomes now h hne
    rcases process_preserves_no_delivered notif cb (outcomes (notif.attempts + 1))
        now 0 0 h with hl | hr
    · cases hq : (_process_tracking_id notif cb (outcomes (notif.attempts + 1))
          now 0 0).requeue with
      | none =>
        rw [run_loop] at hne ⊢
        rw [hq] at hne ⊢
        exact absurd hl hne
      | some d =>
        rw [run_loop] at hne ⊢
        rw [hq] at hne ⊢
        exact ih _ _ outcomes _ hl hne
    · cases hq : (_process_tracking_id notif cb (outcomes (notif.attempts + 1))
          now 0 0).requeue with
      | none =>
        rw [run_loop] at hne ⊢
        rw [hq] at hne ⊢
        exact hr.1
      | some d =>
        rw [hq] at hr
        exact absurd hr.2 (by simp)

/-- C5: `record_delivery_attempt` appends exactly the attempt row built from
its arguments (`attempted_at = now`) and updates the parent notification:
`attempts := max attempts attempt_number`, `last_attempt_at := attempted_at`;
a `delivered` attempt sets status `delivered`, stamps `delivered_at` and
clears `failure_reason`; a `failed` or `bounced` attempt sets that status and
the `failure_reason` while leaving `delivered_at` unchanged.  Consequently,
along any worker run of a notification that has never been delivered,
`delivered_at` being set implies status `delivered`. -/
theorem record_attempt_updates :
    (∀ (n : Notif) (k : ℕ) (status : String) (latency : ℚ)
        (err : Option String) (rc : Option ℕ) (now : ℚ),
      (record_delivery_attempt n k status latency err rc now).2 =
        ⟨n.tracking_id, k, status, err, rc, now, latency⟩ ∧
      (record_delivery_attempt n k status latency err rc now).1.attempts =
        max n.attempts k ∧
      (record_delivery_attempt n k status latency err rc now).1.last_attempt_at =
        some now ∧
      (status = "delivered" →
        (record_delivery_attempt n k status latency err rc now).1.status = "delivered" ∧
        (record_delivery_attempt n k status latency err rc now).1.delivered_at = some now ∧
        (record_delivery_attempt n k status latency err rc now).1.failure_reason = none) ∧
      (status = "failed" ∨ status = "bounced" →
        (record_delivery_attempt n k status latency err rc now).1.status = status ∧
        (record_delivery_attempt n k status latency err rc now).1.failure_reason = err ∧
        (record_delivery_attempt n k status latency err rc now).1.delivered_at =
          n.delivered_at)) ∧
    (∀ (fuel : ℕ) (notif : Notif) (cb : CircuitBreaker)
        (outcomes : ℕ → SendOutcome) (now : ℚ),
      notif.delivered_at = none →
      (run_loop fuel notif cb outcomes now).notif.delivered_at ≠ none →
      (run_loop fuel notif cb outcomes now).notif.status = "delivered") := by
  constructor
  · intro n k status latency err rc now
    refine ⟨rfl, ?_, ?_, ?_, ?_⟩
    · unfold record_delivery_attempt
      split_ifs <;> rfl
    · unfold record_delivery_attempt
      split_ifs <;> rfl
    · intro hs
      subst hs
      unfold record_delivery_attempt
      simp
    · intro hs
      rcases hs with hs | hs <;> subst hs <;> simp [record_delivery_attempt]
  · intro fuel notif cb outcomes now h hne
    exact run_loop_delivered_at fuel notif cb outcomes now h hne

/-- Witness for `record_attempt_updates`: a delivered attempt on a fresh
notification, and a one-step worker run ending delivered. -/
theorem record_attempt_updates_witness :
    (record_delivery_attempt (freshNotif "t1" "normal") 1 "delivered" 7 none none 5).1.status
      = "delivered" ∧
    (record_delivery_attempt (freshNotif "t1" "normal") 1 "delivered" 7 none none 5).1.delivered_at
      = some 5 ∧
    (record_delivery_attempt (freshNotif "t1" "normal") 2 "failed" 7 (some "x") none 5).1.delivered_at
      = none ∧
    (freshNotif "t1" "normal").delivered_at = none ∧
    (run_loop 1 (freshNotif "t1" "normal") (newCircuitBreaker 3 60)
      (fun _ => .success) 0).notif.status = "delivered" := by
  obtain ⟨hop, hrun⟩ := record_attempt_updates
  obtain ⟨_, _, _, hdel, hfail⟩ := hop (freshNotif "t1" "normal") 1 "delivered" 7 none none 5
  obtain ⟨hd1, hd2, _⟩ := hdel rfl
  obtain ⟨_, _, _, _, hfail2⟩ := hop (freshNotif "t1" "normal") 2 "failed" 7 (some "x") none 5
  refine ⟨hd1, hd2, ?_, rfl, ?_⟩
  · exact (hfail2 (Or.inl rfl)).2.2
  · exact hrun 1 (freshNotif "t1" "normal") (newCircuitBreaker 3 60) (fun _ => .success) 0
      rfl (of_decide_eq_true (by with_unfolding_all rfl))

/-! ## C4 — transient failures, retries and exhaustion -/

/-- C4 (counterexample): with the default per-recipient breaker
(threshold 3, cooldown 60 s) and prompt retry processing, a critical
notification whose every dispatch raises a transient error records 4
attempts — the 4th is the `circuit_open` fast-fail 15 s after the breaker
opened — not `max_attempts = 5` as the claim asserts for every priority. -/
theorem transient_exhaustion_counterexample :
    (run_loop 10 (freshNotif "t1" "critical") (newCircuitBreaker 3 60)
      (fun _ => .transientError "err") 0).recorded.length = 4 ∧
    (run_loop 10 (freshNotif "t1" "critical") (newCircuitBreaker 3 60)
      (fun _ => .transientError "err") 0).recorded.map (fun a => a.error_message) =
      [some "err", some "err", some "err", some "circuit_open"] ∧
    (get_retry_plan "critical").max_attempts = 5 ∧
    ¬ (run_loop 10 (freshNotif "t1" "critical") (newCircuitBreaker 3 60)
      (fun _ => .transientError "err") 0).recorded.length =
        (get_retry_plan "critical").max_attempts :=
  of_decide_eq_true (by with_unfolding_all rfl)

/-- C4 (amended): on a transient channel error or any unclassified exception
the worker records a failed attempt, applies the breaker's `on_failure`, and
schedules a re-enqueue after `next_delay (attempt_number + 1)` iff
`attempt_number < max_attempts`; a permanent error on the first attempt
yields exactly one recorded attempt and terminal status `failed`; a run of
transient errors with the default breaker yields exactly `max_attempts`
recorded attempts and terminal status `failed` for priorities low (1),
normal (2) and high (3), while for critical — whose `max_attempts = 5`
exceeds the breaker threshold 3 — the promptly retried 4th attempt is
refused by the open breaker and recorded as `circuit_open`, ending the run
at 4 recorded attempts with terminal status `failed`. -/
theorem transient_retry_behavior :
    (∀ (notif : Notif) (cb : CircuitBreaker) (msg : String) (now latency u : ℚ),
      (cb.allow_request now).2 = true →
      (_process_tracking_id notif cb (.transientError msg) now latency u).recorded =
        [⟨notif.tracking_id, notif.attempts + 1, "failed", some msg, none, now, latency⟩] ∧
      (_process_tracking_id notif cb (.transientError msg) now latency u).cb =
        ((cb.allow_request now).1).on_failure now ∧
      (_process_tracking_id notif cb (.transientError msg) now latency u).notif.status =
        "failed" ∧
      (_process_tracking_id notif cb (.transientError msg) now latency u).requeue =
        (if notif.attempts + 1 < (get_retry_plan notif.priority).max_attempts then
          some ((get_retry_plan notif.priority).next_delay (notif.attempts + 1 + 1) u)
        else none)) ∧
    (∀ (notif : Notif) (cb : CircuitBreaker) (msg : String) (now latency u : ℚ),
      (cb.allow_request now).2 = true →
      (_process_tracking_id notif cb (.unknownError msg) now latency u).recorded =
        [⟨notif.tracking_id, notif.attempts + 1, "failed", some ("unexpected: " ++ msg),
          none, now, latency⟩] ∧
      (_process_tracking_id notif cb (.unknownError msg) now latency u).cb =
        ((cb.allow_request now).1).on_failure now ∧
      (_process_tracking_id notif cb (.unknownError msg) now latency u).requeue =
        (if notif.attempts + 1 < (get_retry_plan notif.priority).max_attempts then
          some ((get_retry_plan notif.priority).next_delay (notif.attempts + 1 + 1) u)
        else none)) ∧
    (∀ (fuel : ℕ) (tid p msg : String) (now : ℚ),
      (run_loop (fuel + 1) (freshNotif tid p) (newCircuitBreaker 3 60)
        (fun _ => .permanentError msg) now).recorded =
        [⟨tid, 1, "failed", some msg, none, now, 0⟩] ∧
      (run_loop (fuel + 1) (freshNotif tid p) (newCircuitBreaker 3 60)
        (fun _ => .permanentError msg) now).notif.status = "failed") ∧
    ((run_loop 10 (freshNotif "t1" "low") (newCircuitBreaker 3 60)
        (fun _ => .transientError "err") 0).recorded.length = 1 ∧
      (run_loop 10 (freshNotif "t1" "normal") (newCircuitBreaker 3 60)
        (fun _ => .transientError "err") 0).recorded.length = 2 ∧
      (run_loop 10 (freshNotif "t1" "high") (newCircuitBreaker 3 60)
        (fun _ => .transientError "err") 0).recorded.length = 3 ∧
      (run_loop 10 (freshNotif "t1" "critical") (newCircuitBreaker 3 60)
        (fun _ => .transientError "err") 0).recorded.length = 4 ∧
      ∀ p, p = "low" ∨ p = "normal" ∨ p = "high" ∨ p = "critical" →
        (run_loop 10 (freshNotif "t1" p) (newCircuitBreaker 3 60)
          (fun _ => .transientError "err") 0).notif.status = "failed" ∧
        (run_loop 10 (freshNotif "t1" p) (newCircuitBreaker 3 60)
          (fun _ => .transientError "err") 0).recorded.map (fun a => a.status) =
          List.replicate (run_loop 10 (freshNotif "t1" p) (newCircuitBreaker 3 60)
            (fun _ => .transientError "err") 0).recorded.length "failed") := by
  refine ⟨?_, ?_, ?_, ?_⟩
  · intro notif cb msg now latency u h
    unfold _process_tracking_id
    simp [h, record_delivery_attempt]
  · intro notif cb msg now latency u h
    unfold _process_tracking_id
    simp [h, record_delivery_attempt]
  · intro fuel tid p msg now
    rw [run_loop]
    have hstep : (_process_tracking_id (freshNotif tid p) (newCircuitBreaker 3 60)
        (.permanentError msg) now 0 0) =
        ⟨⟨tid, p, "failed", 1, none, some now, some msg⟩,
          ⟨3, 60, .closed, 1, none, false⟩,
          [⟨tid, 1, "failed", some msg, none, now, 0⟩], none, true⟩ := by
      unfold _process_tracking_id
      simp [freshNotif, newCircuitBreaker, CircuitBreaker.allow_request,
        CircuitBreaker.on_failure, record_delivery_attempt]
    rw [hstep]
    exact ⟨rfl, rfl⟩
  · refine ⟨?_, ?_, ?_, ?_, ?_⟩
    · exact of_decide_eq_true (by with_unfolding_all rfl)
    · exact of_decide_eq_true (by with_unfolding_all rfl)
    · exact of_decide_eq_true (by with_unfolding_all rfl)
    · exact of_decide_eq_true (by with_unfolding_all rfl)
    · intro p hp
      rcases hp with h | h | h | h <;> subst h <;>
        exact of_decide_eq_true (by with_unfolding_all rfl)

/-- Witness for `transient_retry_behavior`: one transient step on a fresh
normal-priority notification (breaker closed, so the request is allowed), a
permanent failure at fuel 1, and the concrete priority runs. -/
theorem transient_retry_behavior_witness :
    ((newCircuitBreaker 3 60).allow_request 0).2 = true ∧
    (_process_tracking_id (freshNotif "t1" "normal") (newCircuitBreaker 3 60)
      (.transientError "boom") 0 2 0).recorded =
      [⟨"t1", 1, "failed", some "boom", none, 0, 2⟩] ∧
    (_process_tracking_id (freshNotif "t1" "normal") (newCircuitBreaker 3 60)
      (.transientError "boom") 0 2 0).requeue =
      (if 0 + 1 < (get_retry_plan "normal").max_attempts then
        some ((get_retry_plan "normal").next_delay (0 + 1 + 1) 0)
      else none) ∧
    (run_loop 1 (freshNotif "t2" "low") (newCircuitBreaker 3 60)
      (fun _ => .permanentError "bad") 7).recorded =
      [⟨"t2", 1, "failed", some "bad", none, 7, 0⟩] ∧
    (run_loop 10 (freshNotif "t1" "normal") (newCircuitBreaker 3 60)
      (fun _ => .transientError "err") 0).notif.status = "failed" := by
  obtain ⟨htr, _, hperm, hruns⟩ := transient_retry_behavior
  have hallow : ((newCircuitBreaker 3 60).allow_request 0).2 = true := rfl
  obtain ⟨ha, _, _, hd⟩ := htr (freshNotif "t1" "normal") (newCircuitBreaker 3 60)
    "boom" 0 2 0 hallow
  obtain ⟨hp1, _⟩ := hperm 0 "t2" "low" "bad" 7
  exact ⟨hallow, ha, hd, hp1, (hruns.2.2.2.2 "normal" (by tauto)).1⟩

/-! ## C6 — priority queue ordering -/

theorem entryLe_refl (a : QueueEntry) : entryLe a a := by
  unfold entryLe
  omega

theorem entryLe_total (a b : QueueEntry) : entryLe a b ∨ entryLe b a := by
  unfold entryLe
  omega

theorem entryLe_trans {a b c : QueueEntry} (hab : entryLe a b) (hbc : entryLe b c) :
    entryLe a c := by
  unfold entryLe at *
  omega

theorem popMin1_perm : ∀ (xs : List QueueEntry) (x : QueueEntry),
    (x :: xs).Perm ((popMin1 x xs).1 :: (popMin1 x xs).2) := by
  intro xs
  induction xs with
  | nil => intro x; rw [popMin1]
  | cons y ys ih =>
    intro x
    by_cases hle : entryLe x (popMin1 y ys).1
    · rw [popMin1, if_pos hle]
    · rw [popMin1, if_neg hle]
      exact ((ih y).cons x).trans (List.Perm.swap _ _ _)

theorem popMin1_min : ∀ (xs : List QueueEntry) (x : QueueEntry),
    ∀ z ∈ x :: xs, entryLe (popMin1 x xs).1 z := by
  intro xs
  induction xs with
  | nil =>
    intro x z hz
    rw [List.mem_singleton.mp hz]
    exact entryLe_refl x
  | cons y ys ih =>
    intro x z hz
    by_cases hle : entryLe x (popMin1 y ys).1
    · rw [popMin1, if_pos hle]
      rcases List.mem_cons.mp hz with hzx | hzys
      · rw [hzx]; exact entryLe_refl x
      · exact entryLe_trans hle (ih y z hzys)
    · rw [popMin1, if_neg hle]
      rcases List.mem_cons.mp hz with hzx | hzys
      · rw [hzx]
        rcases entryLe_total x (popMin1 y ys).1 with hxm | hmx
        · exact absurd hxm hle
        · exact hmx
      · exact ih y z hzys

theorem popMin1_length (xs : List QueueEntry) (x : QueueEntry) :
    (popMin1 x xs).2.length = xs.length := by
  have := (popMin1_perm xs x).length_eq
  simp at this
  omega

theorem drainAux_perm (fuel : ℕ) :
    ∀ q : List QueueEntry, q.length ≤ fuel → (drainAux fuel q).Perm q := by
  induction fuel with
  | zero =>
    intro q hq
    have hq0 : q = [] := List.length_eq_zero.mp (by omega)
    rw [hq0]
    exact List.Perm.nil
  | succ n ih =>
    intro q hq
    cases q with
    | nil => exact List.Perm.nil
    | cons x xs =>
      rw [drainAux]
      rw [List.length_cons] at hq
      have hlen := popMin1_length xs x
      have hx := ih (popMin1 x xs).2 (by omega)
      exact (hx.cons (popMin1 x xs).1).trans (popMin1_perm xs x).symm

theorem drainAux_sorted (fuel : ℕ) :
    ∀ q : List QueueEntry, q.length ≤ fuel → List.Pairwise entryLe (drainAux fuel q) := by
  induction fuel with
  | zero =>
    intro q hq
    rw [drainAux]
    exact List.Pairwise.nil
  | succ n ih =>
    intro q hq
    cases q with
    | nil => exact List.Pairwise.nil
    | cons x xs =>
      rw [drainAux]
      rw [List.length_cons] at hq
      have hlen := popMin1_length xs x
      refine List.Pairwise.cons ?_ (ih (popMin1 x xs).2 (by omega))
      intro y hy
      have hymem : y ∈ x :: xs := (popMin1_perm xs x).mem_iff.mpr
        (List.mem_cons_of_mem _
          ((drainAux_perm n (popMin1 x xs).2 (by omega)).mem_iff.mp hy))
      exact popMin1_min xs x y hymem

theorem drain_perm (q : List QueueEntry) : (drain q).Perm q :=
  drainAux_perm q.length q le_rfl

theorem drain_sorted (q : List QueueEntry) : List.Pairwise entryLe (drain q) :=
  drainAux_sorted q.length q le_rfl

/-- C6: the rank mapping is critical 0, high 1, normal 2, low 3; draining any
queue dequeues every entry exactly once (a permutation), and along the
dequeue order priority ranks never decrease while, within an equal rank,
admission sequence numbers never decrease — so a lower-rank entry is dequeued
before every higher-rank entry and FIFO holds within a priority class; in
particular a low-priority then a high-priority push on an empty queue
dequeues the high one first. -/
theorem queue_priority_ordering :
    (_priority_value "critical" = 0 ∧ _priority_value "high" = 1 ∧
      _priority_value "normal" = 2 ∧ _priority_value "low" = 3) ∧
    (∀ q : List QueueEntry, (drain q).Perm q) ∧
    (∀ (q : List QueueEntry) (i j : Fin (drain q).length), i < j →
      ((drain q).get i).priority_rank ≤ ((drain q).get j).priority_rank ∧
      (((drain q).get i).priority_rank = ((drain q).get j).priority_rank →
        ((drain q).get i).sequence ≤ ((drain q).get j).sequence)) ∧
    drain [⟨_priority_value "low", 1, 100⟩, ⟨_priority_value "high", 2, 200⟩] =
      [⟨_priority_value "high", 2, 200⟩, ⟨_priority_value "low", 1, 100⟩] := by
  refine ⟨⟨rfl, rfl, rfl, rfl⟩, drain_perm, ?_, by decide⟩
  intro q i j hij
  have hle := List.pairwise_iff_get.mp (drain_sorted q) i j hij
  unfold entryLe at hle
  omega

/-- Witness for `queue_priority_ordering`: the two-entry low/high queue,
positions 0 and 1 of its dequeue order. -/
theorem queue_priority_ordering_witness :
    ((drain [⟨3, 1, 100⟩, ⟨1, 2, 200⟩]).get ⟨0, by decide⟩).priority_rank ≤
      ((drain [⟨3, 1, 100⟩, ⟨1, 2, 200⟩]).get ⟨1, by decide⟩).priority_rank ∧
    (drain [⟨3, 1, 100⟩, ⟨1, 2, 200⟩]).Perm [⟨3, 1, 100⟩, ⟨1, 2, 200⟩] := by
  obtain ⟨_, hperm, hsorted, _⟩ := queue_priority_ordering
  exact ⟨(hsorted [⟨3, 1, 100⟩, ⟨1, 2, 200⟩] ⟨0, by decide⟩ ⟨1, by decide⟩
    (by decide)).1, hperm _⟩

/-! ## C8 — token-bucket rate limiter -/

theorem refilled_eq (b : TokenBucket) (now : ℚ) (hlr : b.last_refill ≤ now)
    (htc : b.tokens ≤ b.capacity) :
    b.refilled now =
      { b with tokens := min b.capacity (b.tokens + (now - b.last_refill) * b.refill_rate),
               last_refill := now } := by
  obtain ⟨cap, rate, tok, lr⟩ := b
  simp only at hlr htc
  unfold TokenBucket.refilled
  rcases eq_or_lt_of_le hlr with heq | hlt
  · rw [if_neg (by rw [heq]; simp)]
    rw [heq]
    simp [min_eq_right htc]
  · rw [if_pos (by linarith)]

theorem refilled_self (b : TokenBucket) (now : ℚ) (h : b.last_refill = now) :
    b.refilled now = b := by
  unfold TokenBucket.refilled
  rw [if_neg (by rw [h]; simp)]

theorem try_consume_instant (b : TokenBucket) (now amount : ℚ)
    (h : b.last_refill = now) :
    b.try_consume now amount =
      if amount ≤ b.tokens then ({ b with tokens := b.tokens - amount }, true)
      else (b, false) := by
  unfold TokenBucket.try_consume
  rw [refilled_self b now h]

theorem allow_instant (rl : RateLimiter) (key : String) (now amount : ℚ)
    (b : TokenBucket) (hlk : lookupBucket key rl.buckets = some b)
    (hlr : b.last_refill = now) :
    rl.allow key now amount =
      (⟨rl.capacity, rl.refill_rate,
          (key, if amount ≤ b.tokens then { b with tokens := b.tokens - amount } else b)
            :: removeBucket key rl.buckets⟩,
        decide (amount ≤ b.tokens)) := by
  unfold RateLimiter.allow
  simp only [hlk]
  rw [try_consume_instant b now amount hlr]
  split_ifs with hc
  · simp [hc]
  · simp [hc]

theorem allowBurst_succ (rl : RateLimiter) (key : String) (now : ℚ) (n : ℕ) :
    rl.allowBurst key now (n + 1) =
      (((rl.allow key now 1).1.allowBurst key now n).1,
        (if (rl.allow key now 1).2 then 1 else 0)
          + ((rl.allow key now 1).1.allowBurst key now n).2) := rfl

theorem allowBurst_le (key : String) (now : ℚ) :
    ∀ (n : ℕ) (rl : RateLimiter) (b : TokenBucket),
    lookupBucket key rl.buckets = some b → b.last_refill = now → 0 ≤ b.tokens →
    (((rl.allowBurst key now n).2 : ℚ)) ≤ b.tokens := by
  intro n
  induction n with
  | zero =>
    intro rl b hlk hlr htk
    simpa [RateLimiter.allowBurst] using htk
  | succ m ih =>
    intro rl b hlk hlr htk
    rw [allowBurst_succ, allow_instant rl key now 1 b hlk hlr]
    by_cases hc : (1 : ℚ) ≤ b.tokens
    · have hrec := ih ⟨rl.capacity, rl.refill_rate,
        (key, { b with tokens := b.tokens - 1 }) :: removeBucket key rl.buckets⟩
        { b with tokens := b.tokens - 1 } (by simp [lookupBucket]) hlr
        (by show (0 : ℚ) ≤ b.tokens - 1; linarith)
      simp only [hc, decide_True, if_pos] at hrec ⊢
      push_cast
      linarith
    · have hrec := ih ⟨rl.capacity, rl.refill_rate,
        (key, b) :: removeBucket key rl.buckets⟩ b (by simp [lookupBucket]) hlr htk
      simp only [hc, decide_False, if_neg] at hrec ⊢
      push_cast
      linarith

theorem allowBurst_fresh (rl : RateLimiter) (key : String) (now : ℚ) (n : ℕ)
    (hlk : lookupBucket key rl.buckets = none) (hcap : 0 ≤ rl.capacity) :
    ((rl.allowBurst key now n).2 : ℚ) ≤ rl.capacity := by
  cases n with
  | zero => simpa [RateLimiter.allowBurst] using hcap
  | succ m =>
    have hallow : rl.allow key now 1 =
        (⟨rl.capacity, rl.refill_rate,
            (key, if (1 : ℚ) ≤ rl.capacity then
                ⟨rl.capacity, rl.refill_rate, rl.capacity - 1, now⟩
              else ⟨rl.capacity, rl.refill_rate, rl.capacity, now⟩)
              :: removeBucket key rl.buckets⟩,
          decide ((1 : ℚ) ≤ rl.capacity)) := by
      unfold RateLimiter.allow
      simp only [hlk]
      rw [try_consume_instant ⟨rl.capacity, rl.refill_rate, rl.capacity, now⟩ now 1 rfl]
      split_ifs with hc
      · simp [hc]
      · simp [hc]
    rw [allowBurst_succ, hallow]
    by_cases hc : (1 : ℚ) ≤ rl.capacity
    · have hrec := allowBurst_le key now m ⟨rl.capacity, rl.refill_rate,
        (key, ⟨rl.capacity, rl.refill_rate, rl.capacity - 1, now⟩)
          :: removeBucket key rl.buckets⟩
        ⟨rl.capacity, rl.refill_rate, rl.capacity - 1, now⟩
        (by simp [lookupBucket]) rfl (by show (0:ℚ) ≤ rl.capacity - 1; linarith)
      simp only [hc, decide_True, if_pos] at hrec ⊢
      push_cast
      linarith
    · have hrec := allowBurst_le key now m ⟨rl.capacity, rl.refill_rate,
        (key, ⟨rl.capacity, rl.refill_rate, rl.capacity, now⟩)
          :: removeBucket key rl.buckets⟩
        ⟨rl.capacity, rl.refill_rate, rl.capacity, now⟩
        (by simp [lookupBucket]) rfl hcap
      simp only [hc, decide_False, if_neg] at hrec ⊢
      push_cast
      linarith

/-- C8: `try_consume` (and hence `allow`) first refills the bucket to
`min(capacity, tokens + elapsed * refill_rate)` with `last_refill := now`
(for a monotone clock and a bucket within capacity), then succeeds and
decrements by `amount` iff the refilled tokens are at least `amount`, leaving
the tokens otherwise; an unseen key gets a bucket that starts full at
`capacity`; and in a burst of `allow(key, 1)` calls at one instant on a fresh
key, at most `capacity` calls return true. -/
theorem rate_limiter_token_bucket :
    (∀ (b : TokenBucket) (now amount : ℚ), b.last_refill ≤ now →
      b.tokens ≤ b.capacity →
      (((b.try_consume now amount).2 = true) ↔
        amount ≤ min b.capacity (b.tokens + (now - b.last_refill) * b.refill_rate)) ∧
      (b.try_consume now amount).1.tokens =
        (if amount ≤ min b.capacity (b.tokens + (now - b.last_refill) * b.refill_rate)
         then min b.capacity (b.tokens + (now - b.last_refill) * b.refill_rate) - amount
         else min b.capacity (b.tokens + (now - b.last_refill) * b.refill_rate)) ∧
      (b.try_consume now amount).1.last_refill = now) ∧
    (∀ (rl : RateLimiter) (key : String) (now amount : ℚ),
      lookupBucket key rl.buckets = none →
      (((rl.allow key now amount).2 = true) ↔ amount ≤ rl.capacity) ∧
      lookupBucket key (rl.allow key now amount).1.buckets =
        some ⟨rl.capacity, rl.refill_rate,
          (if amount ≤ rl.capacity then rl.capacity - amount else rl.capacity), now⟩) ∧
    (∀ (rl : RateLimiter) (key : String) (now : ℚ) (n : ℕ),
      lookupBucket key rl.buckets = none → 0 ≤ rl.capacity →
      ((rl.allowBurst key now n).2 : ℚ) ≤ rl.capacity) := by
  refine ⟨?_, ?_, ?_⟩
  · intro b now amount hlr htc
    unfold TokenBucket.try_consume
    rw [refilled_eq b now hlr htc]
    split_ifs with hc
    · simp [hc]
    · simp [hc]
  · intro rl key now amount hlk
    unfold RateLimiter.allow
    simp only [hlk]
    rw [try_consume_instant ⟨rl.capacity, rl.refill_rate, rl.capacity, now⟩ now amount rfl]
    split_ifs with hc
    · simp [hc, lookupBucket]
    · simp [hc, lookupBucket]
  · intro rl key now n hlk hcap
    exact allowBurst_fresh rl key now n hlk hcap

/-- Witness for `rate_limiter_token_bucket`: a bucket refilling over 2 s at
rate 1 from 3 tokens (capacity 10), an unseen key on a capacity-10 limiter,
and a 15-call burst succeeding at most 10 times. -/
theorem rate_limiter_token_bucket_witness :
    ((TokenBucket.try_consume ⟨10, 1, 3, 0⟩ 2 4).2 = true ↔
      (4 : ℚ) ≤ min 10 (3 + (2 - 0) * 1)) ∧
    ((RateLimiter.allow ⟨10, 1, []⟩ "recipient:r1" 0 1).2 = true ↔ (1 : ℚ) ≤ 10) ∧
    ((RateLimiter.allowBurst ⟨10, 1, []⟩ "recipient:r1" 0 15).2 : ℚ) ≤ 10 := by
  obtain ⟨hb, ha, hburst⟩ := rate_limiter_token_bucket
  refine ⟨(hb ⟨10, 1, 3, 0⟩ 2 4 (by norm_num) (by norm_num)).1, ?_, ?_⟩
  · exact (ha ⟨10, 1, []⟩ "recipient:r1" 0 1 rfl).1
  · exact hburst ⟨10, 1, []⟩ "recipient:r1" 0 15 rfl (by norm_num)

/-! ## C2 — scheduler recurrence storage -/

/-- C2 (code bug): a due recurring schedule in a UTC+1 timezone
(`tz_offset = 60` minutes), hourly cron (`cronNext = fun t => t + 60` on
local wall-clock), `send_at = 60` local, `last_run = none`, at
`now_utc = 0`.  The schedule fires (`enqueued`, `last_run := now_utc`,
timezone untouched, a one-off sibling is deactivated), and the true next
occurrence is UTC instant 60; but the code stores `send_at := 60` — the
*naive UTC* wall-clock of that instant — while the time model
(`_to_utc`, which the due scan applies to `send_at`) interprets the stored
naive value in the schedule's timezone, yielding instant 0 ≠ 60: the stored
`send_at` does not denote the next cron occurrence, off by exactly the UTC
offset. -/
theorem scheduler_recurrence_storage_bug :
    (_process_due_schedule 0 ⟨60, 60, some (fun t => t + 60), none, true⟩).enqueued
      = true ∧
    (_process_due_schedule 0 ⟨60, 60, some (fun t => t + 60), none, true⟩).sched.last_run
      = some 0 ∧
    (_process_due_schedule 0 ⟨60, 60, some (fun t => t + 60), none, true⟩).sched.tz_offset
      = 60 ∧
    (_process_due_schedule 0 ⟨60, 60, some (fun t => t + 60), none, true⟩).sched.active
      = true ∧
    (_process_due_schedule 0 ⟨60, 60, none, none, true⟩).sched.active = false ∧
    _next_cron_time (_to_utc 60 60) (fun t => t + 60) 60 = 60 ∧
    (_process_due_schedule 0 ⟨60, 60, some (fun t => t + 60), none, true⟩).sched.send_at
      = 60 ∧
    _to_utc (_process_due_schedule 0
        ⟨60, 60, some (fun t => t + 60), none, true⟩).sched.send_at 60 = 0 ∧
    (0 : ℤ) ≠ _next_cron_time (_to_utc 60 60) (fun t => t + 60) 60 := by
  refine ⟨?_, ?_, ?_, ?_, ?_, ?_, ?_, ?_, by decide⟩ <;>
    simp [_process_due_schedule, schedule_due, _to_utc, _next_cron_time]

/-! ## C9 — unknown priorities handled as normal -/

/-- C9: any priority string outside the four known ones gets the normal
retry plan (2 attempts, delays 10 and 60) and the normal queue rank 2, so
the pipeline treats it exactly like priority `"normal"`. -/
theorem unknown_priority_as_normal (p : String)
    (h1 : p ≠ "critical") (h2 : p ≠ "high") (h3 : p ≠ "normal") (h4 : p ≠ "low") :
    get_retry_plan p = ⟨2, [10, 60]⟩ ∧
    get_retry_plan p = get_retry_plan "normal" ∧
    _priority_value p = 2 ∧
    _priority_value p = _priority_value "normal" := by
  unfold get_retry_plan _priority_value
  rw [if_neg h1, if_neg h2, if_neg h3, if_neg h4, if_neg h1, if_neg h2,
    if_neg h3, if_neg h4]
  refine ⟨rfl, ?_, rfl, ?_⟩ <;> rfl

/-- Witness for `unknown_priority_as_normal` at the unknown priority
`"urgent"`. -/
theorem unknown_priority_as_normal_witness :
    get_retry_plan "urgent" = ⟨2, [10, 60]⟩ ∧
    _priority_value "urgent" = 2 := by
  obtain ⟨ha, _, hb, _⟩ := unknown_priority_as_normal "urgent"
    (by decide) (by decide) (by decide) (by decide)
  exact ⟨ha, hb⟩

/-! ## C10 — webhook classification of non-2xx/non-4xx responses -/

/-- C10: an HTTP response whose status is neither 2xx nor 4xx — 3xx
redirects included — makes `WebhookChannel.send` raise
`TransientChannelError` (the retryable class), never success or
`PermanentChannelError`. -/
theorem webhook_non2xx_non4xx_transient (status_code : ℕ) (text : String)
    (h2xx : ¬(200 ≤ status_code ∧ status_code < 300))
    (h4xx : ¬(400 ≤ status_code ∧ status_code < 500)) :
    webhook_classify_response status_code text =
      .transientError ("Webhook server error " ++ toString status_code ++ ": "
        ++ (text.take 200)) ∧
    (∀ msg, webhook_classify_response status_code text ≠ .permanentError msg) ∧
    (∀ c, webhook_classify_response status_code text ≠ .ok c) := by
  unfold webhook_classify_response
  rw [if_neg h2xx, if_neg h4xx]
  exact ⟨rfl, fun msg => by simp, fun c => by simp⟩

/-- Witness for `webhook_non2xx_non4xx_transient`: a 301 redirect response. -/
theorem webhook_non2xx_non4xx_transient_witness :
    webhook_classify_response 301 "moved" =
      .transientError ("Webhook server error " ++ toString 301 ++ ": "
        ++ (String.take "moved" 200)) ∧
    (∀ msg, webhook_classify_response 301 "moved" ≠ .permanentError msg) := by
  obtain ⟨ha, hb, _⟩ := webhook_non2xx_non4xx_transient 301 "moved"
    (by omega) (by omega)
  exact ⟨ha, hb⟩

end NotificationService
